import Mathlib

/-!
Shallow embedding of the 3D portfolio-city scene code (Portfolio, Building,
Character) used to check the claims of the specification about the visibility
scheduler, resource cache, procedural placement, highlight state, disposal,
the player controller and window instancing.

JavaScript numbers are modelled as rationals, JavaScript strings as lists of
characters, object identity (reference equality) as natural-number handles,
and the stream of `Math.random()` results as an explicit function argument.
-/

/-- A three-component vector of rationals (three.js `Vector3`). -/
structure Vec3 where
  x : ℚ
  y : ℚ
  z : ℚ
deriving DecidableEq

/-- Squared Euclidean distance between two points.  The source compares
`position.distanceTo(camera.position) > 150`; since both sides are
non-negative this is equivalent to comparing the squared distance with
`150 ^ 2 = 22500`, which keeps the embedding inside the rationals. -/
def distSq (a b : Vec3) : ℚ :=
  (a.x - b.x) ^ 2 + (a.y - b.y) ^ 2 + (a.z - b.z) ^ 2

/-- Number of `building.update` calls one building receives during a single
`Portfolio.animate` frame.  Embeds the body of the `forEach` over
`this.buildings`: first the early return `if (distance > 150) return;`,
then `if (this.visibleBuildings.has(building) || this.isInViewFrustum(...))
building.update(...)`.  `always` is membership in `visibleBuildings`,
`inFrustum` is the result of the frustum test. -/
def updateCallsInFrame (camPos bpos : Vec3) (always inFrustum : Bool) : Nat :=
  if 22500 < distSq bpos camPos then 0
  else if always || inFrustum then 1
  else 0

/-- The only runtime error class the disposal model needs: dereferencing a
null field (`TypeError` in JavaScript). -/
inductive JsError where
  | typeError
deriving DecidableEq

/-- The fields of `Portfolio` that `dispose` reads or nulls out.  `none`
models a field that has been set to `null`; resource handles are numbers.
`released` accumulates the handles whose `dispose()` has been called, so
double-frees would be visible as duplicates. -/
structure PortfolioFields where
  buildings : Option (List Nat)
  character : Option Nat
  minimap : Option Nat
  geometryCache : Option (List Nat)
  materialCache : Option (List Nat)
  renderer : Option Nat
  released : List Nat
deriving DecidableEq

/-- Embedding of `Portfolio.dispose`.  The source runs, in order:
`this.buildings.forEach(...)` (throws a TypeError when `buildings` is
null), guarded character/minimap cleanup, `Object.values(this.geometryCache)
.forEach(g => g.dispose())` (throws when null), the same for
`materialCache`, guarded renderer cleanup, and finally sets `scene`,
`camera`, `controls`, `buildings`, `geometryCache` and `materialCache`
to `null`. -/
def Portfolio.dispose (s : PortfolioFields) : Except JsError PortfolioFields :=
  match s.buildings with
  | none => .error .typeError
  | some _bs =>
    match s.geometryCache with
    | none => .error .typeError
    | some gc =>
      match s.materialCache with
      | none => .error .typeError
      | some mc =>
        .ok { buildings := none
              character := none
              minimap := none
              geometryCache := none
              materialCache := none
              renderer := none
              released := s.released ++ gc ++ mc }

/-- A freshly constructed portfolio: non-null fields, two cached geometries
and one cached material, nothing released yet. -/
def freshPortfolio : PortfolioFields :=
  { buildings := some [0, 1]
    character := some 0
    minimap := some 0
    geometryCache := some [10, 11]
    materialCache := some [20]
    renderer := some 0
    released := [] }

/-- The material fields touched by `Building.highlight` and
`Building.unhighlight`: base color, emissive color (both hex numbers) and
emissive intensity. -/
structure Material3 where
  color : Nat
  emissive : Nat
  emissiveIntensity : ℚ
deriving DecidableEq

/-- One direct child of `building.mesh`: the `userData.isLogo` flag, the
optional material, and the optional `userData.originalColor` slot
(`none` models the JavaScript `undefined`). -/
structure ChildPart where
  isLogo : Bool
  material : Option Material3
  originalColor : Option Nat
deriving DecidableEq

/-- JavaScript truthiness of the `userData.originalColor` slot: `undefined`
is falsy, and so is the number `0` (a stored black color). -/
def truthyColor : Option Nat → Bool
  | none => false
  | some n => decide (n ≠ 0)

/-- Embedding of the `forEach` body of `Building.highlight`: logo children
are skipped; for a child with a material and a falsy
`userData.originalColor`, the base color hex is stored in
`originalColor`, the emissive color is set to white `0xffffff` and the
emissive intensity to `0.2`. -/
def highlightPart (c : ChildPart) : ChildPart :=
  if c.isLogo then c
  else
    match c.material with
    | none => c
    | some m =>
      if truthyColor c.originalColor then c
      else
        { c with
          originalColor := some m.color
          material := some { m with emissive := 0xffffff, emissiveIntensity := 1/5 } }

/-- Embedding of the `forEach` body of `Building.unhighlight`: logo children
are skipped; for a child with a material and a truthy
`userData.originalColor`, the emissive color is set to black `0x000000`,
the emissive intensity to `0`, and `originalColor` is deleted. -/
def unhighlightPart (c : ChildPart) : ChildPart :=
  if c.isLogo then c
  else
    match c.material with
    | none => c
    | some m =>
      if truthyColor c.originalColor then
        { c with
          material := some { m with emissive := 0x000000, emissiveIntensity := 0 }
          originalColor := none }
      else c

/-- Embedding of `Building.highlight`: maps the highlight body over `mesh.children`. -/
def Building.highlight (children : List ChildPart) : List ChildPart :=
  children.map highlightPart

/-- Embedding of `Building.unhighlight`: maps the unhighlight body over `mesh.children`. -/
def Building.unhighlight (children : List ChildPart) : List ChildPart :=
  children.map unhighlightPart

/-- The base color of a child, when it has a material. -/
def partBaseColor (c : ChildPart) : Option Nat :=
  c.material.map (fun m => m.color)

/-- The glow ring of the main building (a direct, non-logo child of
`mesh.children`): material constructed with `color: 0x7ea8c4,
emissive: 0x7ea8c4, emissiveIntensity: 0.5`. -/
def glowRingPart : ChildPart :=
  { isLogo := false
    material := some { color := 0x7ea8c4, emissive := 0x7ea8c4, emissiveIntensity := 1/2 }
    originalColor := none }

/-- A child is round-trip restorable when highlight/unhighlight cannot lose
state on it: it is a logo (untouched), has no material (untouched), or its
material starts in the non-glowing state (emissive black with intensity 0),
no `originalColor` is stored, and its base color hex is nonzero (a zero
stored color is falsy and would break the unhighlight guard). -/
def restorablePart (c : ChildPart) : Prop :=
  c.isLogo = true ∨ c.material = none ∨
    (c.originalColor = none ∧
      ∃ m, c.material = some m ∧ m.emissive = 0 ∧ m.emissiveIntensity = 0 ∧ m.color ≠ 0)

/-- A JavaScript string, modelled as its list of characters. -/
abbrev JStr := List Char

/-- True when the string contains no underscore (the cache-key separator).
JavaScript renderings of numbers (digits, minus sign, decimal point,
exponent marker) are always separator-free. -/
def sepFree (s : JStr) : Bool :=
  decide ('_' ∉ s)

/-- Embedding of `params.join('_')`: the parameter strings joined with underscores. -/
def joinSep : List JStr → JStr
  | [] => []
  | [x] => x
  | x :: y :: r => x ++ '_' :: joinSep (y :: r)

/-- The geometry cache key: the template literal
`` `${type}_${params.join('_')}` ``. -/
def geomKey (t : JStr) (ps : List JStr) : JStr :=
  t ++ '_' :: joinSep ps

/-- The material cache key: the template literal
`` `${type}_${JSON.stringify(params)}` `` with the serialized parameter
object kept as one opaque string. -/
def matKey (t : JStr) (pjson : JStr) : JStr :=
  t ++ '_' :: pjson

/-- The geometry kinds recognized by the `switch` in
`Portfolio.getGeometry`. -/
def recognizedGeomType (t : JStr) : Bool :=
  decide (t = "box".data) || decide (t = "plane".data) || decide (t = "cylinder".data) ||
    decide (t = "cone".data) || decide (t = "torus".data) || decide (t = "circle".data)

/-- The material kinds recognized by the `switch` in
`Portfolio.getMaterial`. -/
def recognizedMatType (t : JStr) : Bool :=
  decide (t = "standard".data) || decide (t = "basic".data) || decide (t = "phong".data)

/-- The error thrown by the `default` branches of `Portfolio.getGeometry`
and `Portfolio.getMaterial` (`Unknown geometry type` and
`Unknown material type`). -/
inductive ResourceError where
  | unknownResourceKind
deriving DecidableEq

/-- The two key-indexed caches (`this.geometryCache`, `this.materialCache`)
together with a counter supplying fresh handles.  A handle (a natural
number) stands for the identity of one allocated GPU resource object, so
handle equality models JavaScript reference equality. -/
structure CacheState where
  geometryCache : List (JStr × Nat)
  materialCache : List (JStr × Nat)
  nextHandle : Nat
deriving DecidableEq

/-- The empty caches of a freshly constructed `Portfolio`. -/
def emptyCache : CacheState :=
  { geometryCache := [], materialCache := [], nextHandle := 0 }

/-- Embedding of `Portfolio.getGeometry(type, ...params)`: build the key,
return the cached handle when present, otherwise allocate a fresh handle
for a recognized kind and throw for the `default` branch. -/
def Portfolio.getGeometry (s : CacheState) (t : JStr) (ps : List JStr) :
    Except ResourceError (Nat × CacheState) :=
  let key := geomKey t ps
  match s.geometryCache.lookup key with
  | some h => .ok (h, s)
  | none =>
    if recognizedGeomType t then
      .ok (s.nextHandle,
        { s with
          geometryCache := (key, s.nextHandle) :: s.geometryCache
          nextHandle := s.nextHandle + 1 })
    else .error .unknownResourceKind

/-- Embedding of `Portfolio.getMaterial(type, params)`, with the parameter
object already serialized (`JSON.stringify(params)`). -/
def Portfolio.getMaterial (s : CacheState) (t : JStr) (pjson : JStr) :
    Except ResourceError (Nat × CacheState) :=
  let key := matKey t pjson
  match s.materialCache.lookup key with
  | some h => .ok (h, s)
  | none =>
    if recognizedMatType t then
      .ok (s.nextHandle,
        { s with
          materialCache := (key, s.nextHandle) :: s.materialCache
          nextHandle := s.nextHandle + 1 })
    else .error .unknownResourceKind

/-- The prefix of a key up to the first underscore; for a key built from a
separator-free type string this recovers the type. -/
def keyHead (k : JStr) : JStr :=
  k.takeWhile (fun c => decide (c ≠ '_'))

/-- Invariant of every cache state the program can reach: every geometry
(material) key was built from a recognized geometry (material) type, every
stored handle is below the fresh counter, and no two cache entries share a
handle (each allocation produced a distinct resource object). -/
def CacheWF (s : CacheState) : Prop :=
  (∀ e ∈ s.geometryCache, recognizedGeomType (keyHead e.1) = true ∧ e.2 < s.nextHandle) ∧
  (∀ e ∈ s.materialCache, recognizedMatType (keyHead e.1) = true ∧ e.2 < s.nextHandle) ∧
  (s.geometryCache.map Prod.snd ++ s.materialCache.map Prod.snd).Nodup

/-- JavaScript `Math.abs` on rationals. -/
def jabs (q : ℚ) : ℚ :=
  if q < 0 then -q else q

/-- The union-of-rectangles rejection test of
`Portfolio.addResidentialDistrict`: the two main-road bands, the central
plaza square, the four corner landmark footprints at `(±16, ±16)` and the
NHN footprint at `(0, -24)`, in the order of the source. -/
def excludedResidential (x z : ℚ) : Bool :=
  (jabs x < 10 && jabs z < 20) || (jabs z < 10 && jabs x < 20) ||
    (jabs x < 12 && jabs z < 12) ||
    (jabs (x - 16) < 8 && jabs (z - 16) < 8) || (jabs (x + 16) < 8 && jabs (z - 16) < 8) ||
    (jabs (x - 16) < 8 && jabs (z + 16) < 8) || (jabs (x + 16) < 8 && jabs (z + 16) < 8) ||
    (jabs x < 8 && jabs (z + 24) < 8)

/-- The grid pass of `Portfolio.addResidentialDistrict`: cells
`x, z ∈ [-6, 6)` with `gridSize = 10`, candidate point = cell corner plus
jitter (the `(Math.random() - 0.5) * 5` of the source per coordinate, supplied
here as a function of the cell), rejected cells skipped by `continue`. -/
def residentialCandidates (jitter : Int → Int → ℚ × ℚ) : List (ℚ × ℚ) :=
  (List.range 12).flatMap fun (xi : Nat) =>
    (List.range 12).filterMap fun (zi : Nat) =>
      let x : Int := (xi : Int) - 6
      let z : Int := (zi : Int) - 6
      let px : ℚ := (x : ℚ) * 10 + (jitter x z).1
      let pz : ℚ := (z : ℚ) * 10 + (jitter x z).2
      if excludedResidential px pz then none else some (px, pz)

/-- The selection loop of `Portfolio.addResidentialDistrict`:
`while (selected.length < buildingCount && positions.length > 0)` pick a
random index, push that position and `splice` it out of the pool.  `pick k`
models the `k`-th `Math.floor(Math.random() * positions.length)` draw; the
reduction modulo the pool length records that `Math.random() < 1` keeps the
index in range.  The loop is total: it never throws, and simply stops when
either the requested count is reached or the pool is empty. -/
def selectRandom {α : Type} (pick : Nat → Nat) : Nat → Nat → List α → List α
  | _, 0, _ => []
  | k, n + 1, pool =>
    if h : 0 < pool.length then
      let i : Fin pool.length := ⟨pick k % pool.length, Nat.mod_lt _ h⟩
      pool.get i :: selectRandom pick (k + 1) n (pool.eraseIdx i.val)
    else []

/-- The positions `Portfolio.addResidentialDistrict(buildingCount)` builds
residential buildings at. -/
def addResidentialDistrict (jitter : Int → Int → ℚ × ℚ) (pick : Nat → Nat)
    (buildingCount : Nat) : List (ℚ × ℚ) :=
  selectRandom pick 0 buildingCount (residentialCandidates jitter)

/-- The acceptance test of the random-tree rejection loop in
`Portfolio.addTrees`: `continue` when `|x| < 10 && |z| < 10` or when
`|x| < 5 || |z| < 5`, otherwise the point is valid. -/
def treeAreaValid (x z : ℚ) : Bool :=
  !((jabs x < 10 && jabs z < 10) || (jabs x < 5 || jabs z < 5))

/-- The candidate point the loop derives from the `k`-th pair of
`Math.random()` draws: `(Math.random() - 0.5) * 100` per coordinate. -/
def treeCandidate (rand : Nat → ℚ × ℚ) (k : Nat) : ℚ × ℚ :=
  (((rand k).1 - 1/2) * 100, ((rand k).2 - 1/2) * 100)

/-- The `while (!isValid)` rejection loop of `Portfolio.addTrees` for one
tree, unrolled against an explicit retry budget: try the `k`-th candidate,
return it when valid, otherwise retry.  The source has no retry cap and no
failure signal, so exhausting any finite budget (`fuel = 0`) corresponds to
the loop still spinning. -/
def sampleTreePoint (rand : Nat → ℚ × ℚ) : Nat → Nat → Option (ℚ × ℚ)
  | _, 0 => none
  | k, fuel + 1 =>
    let p := treeCandidate rand k
    if treeAreaValid p.1 p.2 then some p else sampleTreePoint rand (k + 1) fuel

/-- A `Math.random()` stream stuck at `0.5`: every candidate is `(0, 0)`,
which the road-band test rejects forever. -/
def stuckRand : Nat → ℚ × ℚ := fun _ => (1/2, 1/2)

/-- The directional input flags of `Character`. -/
structure MoveFlags where
  moveForward : Bool
  moveBackward : Bool
  moveLeft : Bool
  moveRight : Bool
deriving DecidableEq

/-- The movement vector accumulated at the start of `Character.update`:
`direction.z -= 1` for forward, `+= 1` for backward, `direction.x -= 1`
for left, `+= 1` for right (the y component stays 0). -/
def moveDirection (f : MoveFlags) : ℚ × ℚ :=
  (((if f.moveLeft then (-1 : ℚ) else 0) + (if f.moveRight then (1 : ℚ) else 0)),
   ((if f.moveForward then (-1 : ℚ) else 0) + (if f.moveBackward then (1 : ℚ) else 0)))

/-- An axis-aligned box (three.js `Box3`). -/
structure Box3R where
  min : Vec3
  max : Vec3
deriving DecidableEq

/-- three.js `Box3.intersectsBox`: boxes are disjoint exactly when they are
separated along some axis; touching faces count as intersecting. -/
def boxIntersects (a b : Box3R) : Bool :=
  !(b.max.x < a.min.x || b.min.x > a.max.x ||
    b.max.y < a.min.y || b.min.y > a.max.y ||
    b.max.z < a.min.z || b.min.z > a.max.z)

/-- One obstacle as `Character.handleCollisions` sees it: the mesh position
(`building.mesh.position`) and the bounding box
`new THREE.Box3().setFromObject(building.mesh)`. -/
structure SceneBuilding where
  pos : Vec3
  box : Box3R
deriving DecidableEq

/-- The bounding box of the character recomputed from its current position:
`new THREE.Box3().setFromObject(target)`.  `lo` and `hi` are the constant
offsets of the extent of the visual model around `target.position`. -/
def playerBox (lo hi : Vec3) (p : Vec3) : Box3R :=
  { min := { x := p.x + lo.x, y := p.y + lo.y, z := p.z + lo.z }
    max := { x := p.x + hi.x, y := p.y + hi.y, z := p.z + hi.z } }

/-- Embedding of `Character.handleCollisions`: walk the buildings in order;
on intersection push the position by `0.1` times the x/z components of the
normalized center-to-center vector.  The irrational normalization
(`subVectors(...).normalize()`) is supplied as the oracle `pushDir`; the
push branch is the only place it is used. -/
def handleCollisions (lo hi : Vec3) (pushDir : Vec3 → Vec3 → Vec3)
    (bs : List SceneBuilding) (p : Vec3) : Vec3 :=
  bs.foldl
    (fun pos b =>
      if boxIntersects (playerBox lo hi pos) b.box then
        let d := pushDir pos b.pos
        { pos with x := pos.x + d.x * (1/10), z := pos.z + d.z * (1/10) }
      else pos)
    p

/-- Embedding of the position effect of one `Character.update(delta,
buildings)` tick: when the accumulated direction has positive length the
camera-relative movement (normalization, camera rotation, speed and delta
scaling — irrational trigonometry supplied as the oracle `moveBy`) is
applied, otherwise the position is untouched; then `handleCollisions`
runs.  Camera and animation updates do not touch `target.position`. -/
def characterUpdate (lo hi : Vec3) (pushDir : Vec3 → Vec3 → Vec3)
    (moveBy : Vec3 → Vec3) (f : MoveFlags) (bs : List SceneBuilding) (p : Vec3) : Vec3 :=
  let d := moveDirection f
  let p1 := if 0 < d.1 ^ 2 + d.2 ^ 2 then moveBy p else p
  handleCollisions lo hi pushDir bs p1

/-- The all-false input state (no directional key held). -/
def noInput : MoveFlags :=
  { moveForward := false, moveBackward := false, moveLeft := false, moveRight := false }

/-- From `Building.addWindows`: `windowsHorizontal = Math.floor(this.width * 2)`. -/
def windowsHorizontal (width : ℚ) : Nat :=
  (⌊width * 2⌋).toNat

/-- From `Building.addWindows`: `windowsVertical = Math.floor(this.height * 1.5)`. -/
def windowsVertical (height : ℚ) : Nat :=
  (⌊height * (3/2)⌋).toNat

/-- From `Building.addWindows`: `sideWindowsHorizontal = Math.floor(this.depth * 2)`. -/
def sideWindowsHorizontal (depth : ℚ) : Nat :=
  (⌊depth * 2⌋).toNat

/-- The instanced-mesh capacity reserved at creation:
`totalWindows = windowsHorizontal * windowsVertical * 4` (the comment says
front, back and the two sides). -/
def totalWindows (width height : ℚ) : Nat :=
  windowsHorizontal width * windowsVertical height * 4

/-- Number of kept (not randomly skipped) cells among `n` consecutive grid
cells whose `Math.random() > 0.8` draws are `skip (start)`, ...,
`skip (start + n - 1)`. -/
def countKept (skip : Nat → Bool) (start n : Nat) : Nat :=
  ((List.range n).filter fun j => !skip (start + j)).length

/-- The final `instanceIndex` of `Building.addWindows`: every kept front
cell issues two `setMatrixAt(instanceIndex++)` writes (front and back
face), and when `width > 1.5` every kept side cell issues two more (right
and left face), the side grid being `sideWindowsHorizontal ×
windowsVertical` cells. -/
def windowInstancesPlaced (width height depth : ℚ) (skip : Nat → Bool) : Nat :=
  let wH := windowsHorizontal width
  let wV := windowsVertical height
  let front := 2 * countKept skip 0 (wH * wV)
  let side :=
    if (3/2 : ℚ) < width then 2 * countKept skip (wH * wV) (sideWindowsHorizontal depth * wV)
    else 0
  front + side

/-- The cache state after `getGeometry("box", 5)` on fresh caches. -/
def cacheG1 : CacheState := ⟨[("box_5".data, 0)], [], 1⟩

/-- The cache state after `getGeometry("box", 5)` then `getGeometry("box", 7)`. -/
def cacheG2 : CacheState := ⟨[("box_7".data, 1), ("box_5".data, 0)], [], 2⟩

/-- The cache state after the two geometry calls and one
`getMaterial("standard", ...)` call. -/
def cacheM1 : CacheState := ⟨cacheG2.geometryCache, [("standard_5".data, 2)], 3⟩

/-- A jitter oracle for the run in which every `Math.random()` draw is `0.5`,
so every cell candidate sits exactly on its grid corner. -/
def zeroJitter : Int → Int → ℚ × ℚ := fun _ _ => (0, 0)


/-- Claim C1, counterexample: the claim fails on the code.  A building in the
always-active set (`visibleBuildings`) whose distance to the camera exceeds
150 receives zero `update` calls in the frame, not exactly one: `animate`
tests the distance cutoff before the always-set membership. -/
theorem C1_counterexample :
    updateCallsInFrame ⟨0, 0, 0⟩ ⟨200, 0, 0⟩ true false ≠ 1 := by
  norm_num [updateCallsInFrame, distSq]

/-- Claim C1, amended: per animate frame, a building farther than the fixed
cutoff (150) receives zero `update` calls regardless of always-set membership
and frustum status; a building within the cutoff receives exactly one call
when it is in the always set, exactly one when it is outside the always set
but inside the frustum, and zero otherwise. -/
theorem C1_amended (camPos bpos : Vec3) (always inFrustum : Bool) :
    (22500 < distSq bpos camPos → updateCallsInFrame camPos bpos always inFrustum = 0) ∧
    (distSq bpos camPos ≤ 22500 → always = true →
      updateCallsInFrame camPos bpos always inFrustum = 1) ∧
    (distSq bpos camPos ≤ 22500 → always = false → inFrustum = true →
      updateCallsInFrame camPos bpos always inFrustum = 1) ∧
    (distSq bpos camPos ≤ 22500 → always = false → inFrustum = false →
      updateCallsInFrame camPos bpos always inFrustum = 0) := by
  refine ⟨fun h => ?_, fun h ha => ?_, fun h ha hf => ?_, fun h ha hf => ?_⟩ <;>
    simp [updateCallsInFrame, not_lt.mpr, *]

/-- Claim C1, witness: the amended frame policy evaluated at the camera at
the origin, a far building at `(200, 0, 0)` and a near building at
`(3, 0, 4)`. -/
theorem C1_amended_witness :
    updateCallsInFrame ⟨0, 0, 0⟩ ⟨200, 0, 0⟩ true false = 0 ∧
    updateCallsInFrame ⟨0, 0, 0⟩ ⟨3, 0, 4⟩ true false = 1 ∧
    updateCallsInFrame ⟨0, 0, 0⟩ ⟨3, 0, 4⟩ false true = 1 ∧
    updateCallsInFrame ⟨0, 0, 0⟩ ⟨3, 0, 4⟩ false false = 0 :=
  ⟨(C1_amended _ _ _ _).1 (by norm_num [distSq]),
   (C1_amended _ _ _ _).2.1 (by norm_num [distSq]) rfl,
   (C1_amended _ _ _ _).2.2.1 (by norm_num [distSq]) rfl rfl,
   (C1_amended _ _ _ _).2.2.2 (by norm_num [distSq]) rfl rfl⟩

/-- Claim C2: the first `Portfolio.dispose` call succeeds and releases each
cached resource exactly once, but a second call throws a TypeError, because
the first call set `this.buildings` to null and the second begins with
`this.buildings.forEach`.  Disposal is not idempotent, contradicting the
claim (and the stated intent of the specification). -/
theorem C2_dispose_not_idempotent :
    Portfolio.dispose freshPortfolio =
      .ok { buildings := none, character := none, minimap := none, geometryCache := none,
            materialCache := none, renderer := none, released := [10, 11, 20] } ∧
    (Portfolio.dispose freshPortfolio).bind Portfolio.dispose = .error .typeError :=
  ⟨rfl, rfl⟩

/-- Claim C3, counterexample: the claim fails on the code.  For the main
building, whose glow ring starts with emissive color `0x7ea8c4` and emissive
intensity `0.5`, `highlight()` followed by `unhighlight()` does not restore
the prior state: `unhighlight` resets emissive color to the fixed default
`0x000000` and intensity to `0` instead of the stored prior values. -/
theorem C3_counterexample :
    Building.unhighlight (Building.highlight [glowRingPart]) ≠ [glowRingPart] := by
  norm_num [Building.highlight, Building.unhighlight, highlightPart, unhighlightPart,
    glowRingPart, truthyColor]

theorem partBaseColor_roundtrip (c : ChildPart) :
    partBaseColor (unhighlightPart (highlightPart c)) = partBaseColor c := by
  obtain ⟨logo, mat, oc⟩ := c
  cases logo with
  | true => simp [highlightPart, unhighlightPart]
  | false =>
    cases mat with
    | none => simp [highlightPart, unhighlightPart]
    | some m =>
      cases oc with
      | none =>
        by_cases hc : m.color = 0 <;>
          simp [highlightPart, unhighlightPart, truthyColor, partBaseColor, hc]
      | some n =>
        by_cases hn : n = 0
        · by_cases hc : m.color = 0 <;>
            simp [highlightPart, unhighlightPart, truthyColor, partBaseColor, hn, hc]
        · simp [highlightPart, unhighlightPart, truthyColor, partBaseColor, hn]

theorem restorable_roundtrip (c : ChildPart) (h : restorablePart c) :
    unhighlightPart (highlightPart c) = c := by
  obtain ⟨logo, mat, oc⟩ := c
  rcases h with hl | hm | ⟨hoc, m, hm, he, hi, hc⟩
  · simp only at hl
    subst hl
    simp [highlightPart, unhighlightPart]
  · simp only at hm
    subst hm
    cases logo <;> simp [highlightPart, unhighlightPart]
  · simp only at hm hoc
    subst hm
    subst hoc
    obtain ⟨mc, me, mi⟩ := m
    simp only at he hi hc
    subst he
    subst hi
    cases logo with
    | true => simp [highlightPart, unhighlightPart]
    | false => simp [highlightPart, unhighlightPart, truthyColor, hc]

/-- Claim C3, amended: the highlight/unhighlight round trip never alters any
base color of a part; and it restores the exact prior state for every part
that is a logo, has no material, or starts non-glowing (emissive black,
intensity 0, nonzero base color, no stored original color).  Emissive state
is reset to fixed defaults, not to a stored prior value, so glowing parts are
not restored. -/
theorem C3_amended (parts : List ChildPart) :
    (Building.unhighlight (Building.highlight parts)).map partBaseColor =
      parts.map partBaseColor ∧
    ((∀ c ∈ parts, restorablePart c) →
      Building.unhighlight (Building.highlight parts) = parts) := by
  constructor
  · induction parts with
    | nil => rfl
    | cons c cs ih =>
      simp [Building.highlight, Building.unhighlight] at ih ⊢
      exact ⟨partBaseColor_roundtrip c, ih⟩
  · intro h
    induction parts with
    | nil => rfl
    | cons c cs ih =>
      simp [Building.highlight, Building.unhighlight] at ih ⊢
      exact ⟨restorable_roundtrip c (h c (by simp)), ih fun d hd => h d (by simp [hd])⟩

/-- Claim C3, witness: the round trip is the identity on a standard
non-glowing wall part with base color `0xf5b971`. -/
theorem C3_amended_witness :
    Building.unhighlight (Building.highlight
      [{ isLogo := false,
         material := some { color := 0xf5b971, emissive := 0, emissiveIntensity := 0 },
         originalColor := none }]) =
      [{ isLogo := false,
         material := some { color := 0xf5b971, emissive := 0, emissiveIntensity := 0 },
         originalColor := none }] :=
  (C3_amended _).2 (by
    intro c hc
    simp only [List.mem_singleton] at hc
    subst hc
    exact Or.inr (Or.inr ⟨rfl, _, rfl, rfl, rfl, by norm_num⟩))

theorem handleCollisions_of_no_hit (lo hi : Vec3) (pushDir : Vec3 → Vec3 → Vec3)
    (bs : List SceneBuilding) (p : Vec3)
    (h : ∀ b ∈ bs, boxIntersects (playerBox lo hi p) b.box = false) :
    handleCollisions lo hi pushDir bs p = p := by
  induction bs with
  | nil => rfl
  | cons b bs ih =>
    have hb := h b (by simp)
    simp only [handleCollisions, List.foldl_cons, hb, Bool.false_eq_true, if_false]
    exact ih fun d hd => h d (by simp [hd])

/-- Claim C9: a `Character.update` tick with no directional input flags set
leaves the position unchanged whenever the bounding box of the player
intersects no building box: the movement block is skipped (zero direction)
and every collision branch is a no-op. -/
theorem C9_controller_rest (lo hi : Vec3) (pushDir : Vec3 → Vec3 → Vec3)
    (moveBy : Vec3 → Vec3) (bs : List SceneBuilding) (p : Vec3)
    (h : ∀ b ∈ bs, boxIntersects (playerBox lo hi p) b.box = false) :
    characterUpdate lo hi pushDir moveBy noInput bs p = p := by
  have hdir : moveDirection noInput = (0, 0) := by
    norm_num [moveDirection, noInput]
  unfold characterUpdate
  rw [hdir]
  norm_num
  exact handleCollisions_of_no_hit lo hi pushDir bs p h

/-- Claim C9, witness: a resting tick at the origin next to (but not
touching) a building whose box spans `[10, 22]` on x and z. -/
theorem C9_controller_rest_witness :
    characterUpdate ⟨-1/2, 0, -1/2⟩ ⟨1/2, 2, 1/2⟩ (fun _ _ => ⟨0, 0, 0⟩) id noInput
      [⟨⟨16, 0, 16⟩, ⟨⟨10, 0, 10⟩, ⟨22, 11, 22⟩⟩⟩] ⟨0, 0, 0⟩ = ⟨0, 0, 0⟩ := by
  apply C9_controller_rest
  intro b hb
  simp only [List.mem_singleton] at hb
  subst hb
  norm_num [boxIntersects, playerBox]

/-- Claim C10: evaluation at the failing input.  For `width = 2`,
`height = 2`, `depth = 4` and a run in which no window cell is randomly
skipped, `addWindows` issues 72 `setMatrixAt` writes while the instanced
mesh was created with capacity `totalWindows = 48`: the side loops use
`Math.floor(depth * 2)` columns, which the `* 4` capacity (computed from
`width`) does not cover when `depth` exceeds `width`. -/
theorem C10_window_capacity_overflow :
    totalWindows 2 2 = 48 ∧
    windowInstancesPlaced 2 2 4 (fun _ => false) = 72 := by
  have hwh : windowsHorizontal 2 = 4 := by
    norm_num [windowsHorizontal]
    rfl
  have hwv : windowsVertical 2 = 3 := by
    norm_num [windowsVertical]
    rfl
  have hsw : sideWindowsHorizontal 4 = 8 := by
    norm_num [sideWindowsHorizontal]
    rfl
  have hck : ∀ s n : Nat, countKept (fun _ => false) s n = n := by
    intro s n
    simp [countKept]
  constructor
  · simp [totalWindows, hwh, hwv]
  · rw [windowInstancesPlaced, hwh, hwv, hsw]
    norm_num [hck]

theorem lookup_mem {l : List (JStr × Nat)} {k : JStr} {h : Nat}
    (hl : l.lookup k = some h) : (k, h) ∈ l := by
  induction l with
  | nil => simp [List.lookup] at hl
  | cons e l ih =>
    rw [List.lookup] at hl
    by_cases he : k = e.1
    · simp [he] at hl
      subst hl
      rw [he]
      exact List.mem_cons_self _ _
    · simp [beq_eq_false_iff_ne.mpr he] at hl
      exact List.mem_cons_of_mem _ (ih hl)

theorem lookup_cons_self {l : List (JStr × Nat)} {k : JStr} {h : Nat} :
    ((k, h) :: l).lookup k = some h := by
  simp [List.lookup]

theorem sepFree_cons {c : Char} {s : JStr} :
    sepFree (c :: s) = true ↔ c ≠ '_' ∧ sepFree s = true := by
  simp only [sepFree, decide_eq_true_eq, List.mem_cons, not_or]
  exact ⟨fun ⟨h1, h2⟩ => ⟨Ne.symm h1, h2⟩, fun ⟨h1, h2⟩ => ⟨Ne.symm h1, h2⟩⟩

theorem sepFree_split {a : JStr} (ha : sepFree a = true) {u b : JStr}
    (hb : sepFree b = true) {v : JStr} (h : a ++ '_' :: u = b ++ '_' :: v) :
    a = b ∧ u = v := by
  induction a generalizing b with
  | nil =>
    cases b with
    | nil => simpa using h
    | cons c b =>
      simp only [List.nil_append, List.cons_append, List.cons.injEq] at h
      exact absurd h.1.symm (sepFree_cons.mp hb).1
  | cons c a ih =>
    cases b with
    | nil =>
      simp only [List.nil_append, List.cons_append, List.cons.injEq] at h
      exact absurd h.1 (sepFree_cons.mp ha).1
    | cons d b =>
      simp only [List.cons_append, List.cons.injEq] at h
      obtain ⟨hcd, h⟩ := h
      obtain ⟨ha', hu⟩ := ih (sepFree_cons.mp ha).2 (sepFree_cons.mp hb).2 h
      exact ⟨by rw [hcd, ha'], hu⟩

theorem joinSep_ne_nil {x : JStr} (hx : x ≠ []) (r : List JStr) :
    joinSep (x :: r) ≠ [] := by
  cases r with
  | nil => simpa [joinSep]
  | cons y r =>
    simp only [joinSep]
    intro h
    cases x with
    | nil => exact hx rfl
    | cons c x => simp at h

theorem sepFree_no_split {a : JStr} (ha : sepFree a = true) (u v : JStr) :
    a ≠ u ++ '_' :: v := by
  intro h
  have : '_' ∈ a := by
    rw [h]
    exact List.mem_append_right _ (List.mem_cons_self _ _)
  simp [sepFree] at ha
  exact ha this

theorem joinSep_inj {xs : List JStr}
    (hx : ∀ x ∈ xs, sepFree x = true ∧ x ≠ []) {ys : List JStr}
    (hy : ∀ y ∈ ys, sepFree y = true ∧ y ≠ []) (h : joinSep xs = joinSep ys) :
    xs = ys := by
  induction xs generalizing ys with
  | nil =>
    cases ys with
    | nil => rfl
    | cons y r =>
      exact absurd h.symm (joinSep_ne_nil (hy y (by simp)).2 r)
  | cons x r ih =>
    cases ys with
    | nil => exact absurd h (joinSep_ne_nil (hx x (by simp)).2 r)
    | cons y t =>
      cases r with
      | nil =>
        cases t with
        | nil => simpa [joinSep] using h
        | cons z t =>
          simp only [joinSep] at h
          exact absurd h (sepFree_no_split (hx x (by simp)).1 _ _)
      | cons x2 r2 =>
        cases t with
        | nil =>
          simp only [joinSep] at h
          exact absurd h.symm (sepFree_no_split (hy y (by simp)).1 _ _)
        | cons y2 t2 =>
          simp only [joinSep] at h
          obtain ⟨h1, h2⟩ :=
            sepFree_split (hx x (by simp)).1 (hy y (by simp)).1 h
          have := ih (fun d hd => hx d (by simp [hd])) (fun d hd => hy d (by simp [hd])) h2
          rw [h1, this]

theorem keyHead_of_sepFree {t : JStr} (ht : sepFree t = true) (r : JStr) :
    keyHead (t ++ '_' :: r) = t := by
  induction t with
  | nil => simp [keyHead, List.takeWhile]
  | cons c t ih =>
    obtain ⟨hc, ht'⟩ := sepFree_cons.mp ht
    have iht := ih ht'
    simp only [keyHead] at iht ⊢
    rw [List.cons_append, List.takeWhile_cons_of_pos (by simp [hc]), iht]

theorem geomKey_inj {t1 t2 : JStr} (h1 : sepFree t1 = true) (h2 : sepFree t2 = true)
    {p1 p2 : List JStr} (hp1 : ∀ x ∈ p1, sepFree x = true ∧ x ≠ [])
    (hp2 : ∀ x ∈ p2, sepFree x = true ∧ x ≠ [])
    (h : geomKey t1 p1 = geomKey t2 p2) : t1 = t2 ∧ p1 = p2 := by
  obtain ⟨ht, hj⟩ := sepFree_split h1 h2 h
  exact ⟨ht, joinSep_inj hp1 hp2 hj⟩

theorem matKey_inj {t1 t2 : JStr} (h1 : sepFree t1 = true) (h2 : sepFree t2 = true)
    {p1 p2 : JStr} (h : matKey t1 p1 = matKey t2 p2) : t1 = t2 ∧ p1 = p2 :=
  sepFree_split h1 h2 h

theorem recognizedGeomType_sepFree {t : JStr} (h : recognizedGeomType t = true) :
    sepFree t = true := by
  simp only [recognizedGeomType, Bool.or_eq_true, decide_eq_true_eq] at h
  rcases h with ((((h | h) | h) | h) | h) | h <;> subst h <;> decide

theorem recognizedMatType_sepFree {t : JStr} (h : recognizedMatType t = true) :
    sepFree t = true := by
  simp only [recognizedMatType, Bool.or_eq_true, decide_eq_true_eq] at h
  rcases h with (h | h) | h <;> subst h <;> decide

theorem snd_nodup_key_eq {l : List (JStr × Nat)} (hnd : (l.map Prod.snd).Nodup)
    {k1 k2 : JStr} {h : Nat} (m1 : (k1, h) ∈ l) (m2 : (k2, h) ∈ l) : k1 = k2 := by
  induction l with
  | nil => simp at m1
  | cons e l ih =>
    rw [List.map_cons, List.nodup_cons] at hnd
    obtain ⟨hnd1, hnd2⟩ := hnd
    rcases List.mem_cons.mp m1 with e1 | m1' <;> rcases List.mem_cons.mp m2 with e2 | m2'
    · rw [← e2] at e1
      exact congrArg Prod.fst e1
    · exfalso
      apply hnd1
      have hs : h = e.2 := congrArg Prod.snd e1
      rw [← hs]
      exact List.mem_map_of_mem Prod.snd m2'
    · exfalso
      apply hnd1
      have hs : h = e.2 := congrArg Prod.snd e2
      rw [← hs]
      exact List.mem_map_of_mem Prod.snd m1'
    · exact ih hnd2 m1' m2'

theorem getGeometry_ok_spec {s : CacheState} {t : JStr} {ps : List JStr} {h : Nat}
    {s1 : CacheState} (hok : Portfolio.getGeometry s t ps = .ok (h, s1)) :
    (s.geometryCache.lookup (geomKey t ps) = some h ∧ s1 = s) ∨
    (s.geometryCache.lookup (geomKey t ps) = none ∧ recognizedGeomType t = true ∧
      h = s.nextHandle ∧
      s1 = ⟨(geomKey t ps, h) :: s.geometryCache, s.materialCache, s.nextHandle + 1⟩) := by
  simp only [Portfolio.getGeometry] at hok
  split at hok
  · simp only [Except.ok.injEq, Prod.mk.injEq] at hok
    left
    exact ⟨by rw [← hok.1]; assumption, hok.2.symm⟩
  · split at hok
    · simp only [Except.ok.injEq, Prod.mk.injEq] at hok
      right
      refine ⟨by assumption, by assumption, hok.1.symm, ?_⟩
      rw [← hok.2, ← hok.1]
    · simp at hok

theorem getMaterial_ok_spec {s : CacheState} {t : JStr} {pj : JStr} {h : Nat}
    {s1 : CacheState} (hok : Portfolio.getMaterial s t pj = .ok (h, s1)) :
    (s.materialCache.lookup (matKey t pj) = some h ∧ s1 = s) ∨
    (s.materialCache.lookup (matKey t pj) = none ∧ recognizedMatType t = true ∧
      h = s.nextHandle ∧
      s1 = ⟨s.geometryCache, (matKey t pj, h) :: s.materialCache, s.nextHandle + 1⟩) := by
  simp only [Portfolio.getMaterial] at hok
  split at hok
  · simp only [Except.ok.injEq, Prod.mk.injEq] at hok
    left
    exact ⟨by rw [← hok.1]; assumption, hok.2.symm⟩
  · split at hok
    · simp only [Except.ok.injEq, Prod.mk.injEq] at hok
      right
      refine ⟨by assumption, by assumption, hok.1.symm, ?_⟩
      rw [← hok.2, ← hok.1]
    · simp at hok

theorem getGeometry_ok_lookup {s : CacheState} {t : JStr} {ps : List JStr} {h : Nat}
    {s1 : CacheState} (hok : Portfolio.getGeometry s t ps = .ok (h, s1)) :
    s1.geometryCache.lookup (geomKey t ps) = some h := by
  rcases getGeometry_ok_spec hok with ⟨hl, rfl⟩ | ⟨_, _, _, rfl⟩
  · exact hl
  · exact lookup_cons_self

theorem getMaterial_ok_lookup {s : CacheState} {t : JStr} {pj : JStr} {h : Nat}
    {s1 : CacheState} (hok : Portfolio.getMaterial s t pj = .ok (h, s1)) :
    s1.materialCache.lookup (matKey t pj) = some h := by
  rcases getMaterial_ok_spec hok with ⟨hl, rfl⟩ | ⟨_, _, _, rfl⟩
  · exact hl
  · exact lookup_cons_self

theorem handles_below {s : CacheState} (hwf : CacheWF s) :
    ∀ x ∈ s.geometryCache.map Prod.snd ++ s.materialCache.map Prod.snd,
      x < s.nextHandle := by
  intro x hx
  rcases List.mem_append.mp hx with hg | hm
  · obtain ⟨e, he, rfl⟩ := List.mem_map.mp hg
    exact (hwf.1 e he).2
  · obtain ⟨e, he, rfl⟩ := List.mem_map.mp hm
    exact (hwf.2.1 e he).2

theorem getGeometry_WF {s : CacheState} {t : JStr} {ps : List JStr} {h : Nat}
    {s1 : CacheState} (hwf : CacheWF s)
    (hok : Portfolio.getGeometry s t ps = .ok (h, s1)) : CacheWF s1 := by
  rcases getGeometry_ok_spec hok with ⟨_, rfl⟩ | ⟨_, hrec, hh, rfl⟩
  · exact hwf
  · subst hh
    refine ⟨?_, ?_, ?_⟩
    · intro e he
      rcases List.mem_cons.mp he with rfl | he'
    
      · refine ⟨?_, Nat.lt_succ_self _⟩
        show recognizedGeomType (keyHead (geomKey t ps)) = true
        rw [geomKey, keyHead_of_sepFree (recognizedGeomType_sepFree hrec)]
        exact hrec
      · exact ⟨(hwf.1 e he').1, Nat.lt_succ_of_lt (hwf.1 e he').2⟩
    · intro e he
      exact ⟨(hwf.2.1 e he).1, Nat.lt_succ_of_lt (hwf.2.1 e he).2⟩
    · rw [List.map_cons, List.cons_append, List.nodup_cons]
      exact ⟨fun hmem => absurd (handles_below hwf _ hmem) (Nat.lt_irrefl _), hwf.2.2⟩

theorem getMaterial_WF {s : CacheState} {t : JStr} {pj : JStr} {h : Nat}
    {s1 : CacheState} (hwf : CacheWF s)
    (hok : Portfolio.getMaterial s t pj = .ok (h, s1)) : CacheWF s1 := by
  rcases getMaterial_ok_spec hok with ⟨_, rfl⟩ | ⟨_, hrec, hh, rfl⟩
  · exact hwf
  · subst hh
    refine ⟨?_, ?_, ?_⟩
    · intro e he
      exact ⟨(hwf.1 e he).1, Nat.lt_succ_of_lt (hwf.1 e he).2⟩
    · intro e he
      rcases List.mem_cons.mp he with rfl | he'
    
      · refine ⟨?_, Nat.lt_succ_self _⟩
        show recognizedMatType (keyHead (matKey t pj)) = true
        rw [matKey, keyHead_of_sepFree (recognizedMatType_sepFree hrec)]
        exact hrec
      · exact ⟨(hwf.2.1 e he').1, Nat.lt_succ_of_lt (hwf.2.1 e he').2⟩
    · rw [List.map_cons]
      have hnd := hwf.2.2
      rw [List.nodup_append] at hnd ⊢
      refine ⟨hnd.1, List.nodup_cons.mpr ⟨fun hmem => ?_, hnd.2.1⟩, ?_⟩
      · exact absurd (handles_below hwf _ (List.mem_append_right _ hmem)) (Nat.lt_irrefl _)
      · intro a ha hmem
        rcases List.mem_cons.mp hmem with heq | hmem2
        · exact absurd (heq ▸ handles_below hwf _ (List.mem_append_left _ ha)) (Nat.lt_irrefl _)
        · exact hnd.2.2 ha hmem2


theorem cacheWF_empty : CacheWF emptyCache := by
  refine ⟨?_, ?_, ?_⟩ <;> simp [emptyCache]

theorem cacheWF_G2 : CacheWF cacheG2 := by
  refine ⟨?_, ?_, ?_⟩ <;> decide

/-- Claim C4: on any reachable cache state, a repeated `getGeometry`
(`getMaterial`) call with the same arguments returns the same handle and
leaves the state unchanged; and two sequential calls with structurally
different arguments (underscore-free type strings; underscore-free, nonempty
parameter strings, as JavaScript renders numbers) return different handles.
Handle equality models JavaScript reference equality. -/
theorem C4_cache_handles (s : CacheState) (hwf : CacheWF s) :
    (∀ t ps h s1, Portfolio.getGeometry s t ps = .ok (h, s1) →
      Portfolio.getGeometry s1 t ps = .ok (h, s1)) ∧
    (∀ t pj h s1, Portfolio.getMaterial s t pj = .ok (h, s1) →
      Portfolio.getMaterial s1 t pj = .ok (h, s1)) ∧
    (∀ t1 ps1 t2 ps2 h1 s1 h2 s2,
      sepFree t1 = true → sepFree t2 = true →
      (∀ x ∈ ps1, sepFree x = true ∧ x ≠ []) →
      (∀ x ∈ ps2, sepFree x = true ∧ x ≠ []) →
      ¬(t1 = t2 ∧ ps1 = ps2) →
      Portfolio.getGeometry s t1 ps1 = .ok (h1, s1) →
      Portfolio.getGeometry s1 t2 ps2 = .ok (h2, s2) →
      h1 ≠ h2) ∧
    (∀ t1 pj1 t2 pj2 h1 s1 h2 s2,
      sepFree t1 = true → sepFree t2 = true →
      ¬(t1 = t2 ∧ pj1 = pj2) →
      Portfolio.getMaterial s t1 pj1 = .ok (h1, s1) →
      Portfolio.getMaterial s1 t2 pj2 = .ok (h2, s2) →
      h1 ≠ h2) := by
  refine ⟨?_, ?_, ?_, ?_⟩
  · intro t ps h s1 hok
    have hl := getGeometry_ok_lookup hok
    simp [Portfolio.getGeometry, hl]
  · intro t pj h s1 hok
    have hl := getMaterial_ok_lookup hok
    simp [Portfolio.getMaterial, hl]
  · intro t1 ps1 t2 ps2 h1 s1 h2 s2 hsf1 hsf2 hp1 hp2 hne hok1 hok2
    have hk : geomKey t1 ps1 ≠ geomKey t2 ps2 :=
      fun hkey => hne (geomKey_inj hsf1 hsf2 hp1 hp2 hkey)
    have hwf1 := getGeometry_WF hwf hok1
    have hmem1 : (geomKey t1 ps1, h1) ∈ s1.geometryCache :=
      lookup_mem (getGeometry_ok_lookup hok1)
    rcases getGeometry_ok_spec hok2 with ⟨hl2, rfl⟩ | ⟨_, _, hh2, rfl⟩
    · intro heq
      subst heq
      have hgnd := (List.nodup_append.mp hwf1.2.2).1
      exact hk (snd_nodup_key_eq hgnd hmem1 (lookup_mem hl2))
    · subst hh2
      exact Nat.ne_of_lt (hwf1.1 _ hmem1).2
  · intro t1 pj1 t2 pj2 h1 s1 h2 s2 hsf1 hsf2 hne hok1 hok2
    have hk : matKey t1 pj1 ≠ matKey t2 pj2 :=
      fun hkey => hne (matKey_inj hsf1 hsf2 hkey)
    have hwf1 := getMaterial_WF hwf hok1
    have hmem1 : (matKey t1 pj1, h1) ∈ s1.materialCache :=
      lookup_mem (getMaterial_ok_lookup hok1)
    rcases getMaterial_ok_spec hok2 with ⟨hl2, rfl⟩ | ⟨_, _, hh2, rfl⟩
    · intro heq
      subst heq
      have hmnd := (List.nodup_append.mp hwf1.2.2).2.1
      exact hk (snd_nodup_key_eq hmnd hmem1 (lookup_mem hl2))
    · subst hh2
      exact Nat.ne_of_lt (hwf1.2.1 _ hmem1).2

/-- Claim C4, witness: concrete cache runs.  Repeating `getGeometry("box", 5)`
returns the cached handle 0 unchanged; `getGeometry("box", 5)` then
`getGeometry("box", 7)` yield distinct handles 0 and 1; the material calls
behave the same way. -/
theorem C4_cache_handles_witness :
    Portfolio.getGeometry cacheG1 "box".data ["5".data] = .ok (0, cacheG1) ∧
    Portfolio.getMaterial cacheM1 "standard".data "5".data = .ok (2, cacheM1) ∧
    (0 : Nat) ≠ 1 ∧ (2 : Nat) ≠ 3 :=
  ⟨(C4_cache_handles emptyCache cacheWF_empty).1 "box".data ["5".data] 0 cacheG1 rfl,
   (C4_cache_handles cacheG2 cacheWF_G2).2.1 "standard".data "5".data 2 cacheM1 rfl,
   (C4_cache_handles emptyCache cacheWF_empty).2.2.1 "box".data ["5".data] "box".data
     ["7".data] 0 cacheG1 1 cacheG2 (by decide) (by decide) (by decide) (by decide)
     (by decide) rfl rfl,
   (C4_cache_handles cacheG2 cacheWF_G2).2.2.2 "standard".data "5".data "standard".data
     "7".data 2 cacheM1 3 ⟨cacheG2.geometryCache, [("standard_7".data, 3),
       ("standard_5".data, 2)], 4⟩ (by decide) (by decide) (by decide) rfl rfl⟩

/-- Claim C5: on any reachable cache state, `getGeometry` with a kind outside
its `switch` (and `getMaterial` with a kind outside its own) throws the
unknown-resource-kind error rather than returning a value. -/
theorem C5_unknown_kind (s : CacheState) (t : JStr) (ps : List JStr) (pj : JStr)
    (hwf : CacheWF s) (ht : sepFree t = true) :
    (recognizedGeomType t = false →
      Portfolio.getGeometry s t ps = .error .unknownResourceKind) ∧
    (recognizedMatType t = false →
      Portfolio.getMaterial s t pj = .error .unknownResourceKind) := by
  constructor
  · intro hrec
    have hl : s.geometryCache.lookup (geomKey t ps) = none := by
      cases hl : s.geometryCache.lookup (geomKey t ps) with
      | none => rfl
      | some h =>
        exfalso
        have hhead := (hwf.1 _ (lookup_mem hl)).1
        simp only [geomKey] at hhead
        rw [keyHead_of_sepFree ht, hrec] at hhead
        exact Bool.false_ne_true hhead
    simp [Portfolio.getGeometry, hl, hrec]
  · intro hrec
    have hl : s.materialCache.lookup (matKey t pj) = none := by
      cases hl : s.materialCache.lookup (matKey t pj) with
      | none => rfl
      | some h =>
        exfalso
        have hhead := (hwf.2.1 _ (lookup_mem hl)).1
        simp only [matKey] at hhead
        rw [keyHead_of_sepFree ht, hrec] at hhead
        exact Bool.false_ne_true hhead
    simp [Portfolio.getMaterial, hl, hrec]

/-- Claim C5, witness: `getGeometry("sphere", ...)` and
`getMaterial("lambert", ...)` on fresh caches both throw. -/
theorem C5_unknown_kind_witness :
    Portfolio.getGeometry emptyCache "sphere".data ["5".data] =
      .error .unknownResourceKind ∧
    Portfolio.getMaterial emptyCache "lambert".data "5".data =
      .error .unknownResourceKind :=
  ⟨(C5_unknown_kind emptyCache "sphere".data ["5".data] "5".data cacheWF_empty
      (by decide)).1 (by decide),
   (C5_unknown_kind emptyCache "lambert".data ["5".data] "5".data cacheWF_empty
      (by decide)).2 (by decide)⟩

theorem selectRandom_mem {α : Type} {pick : Nat → Nat} :
    ∀ {n k : Nat} {pool : List α} {a : α}, a ∈ selectRandom pick k n pool → a ∈ pool := by
  intro n
  induction n with
  | zero => intro k pool a h; simp [selectRandom] at h
  | succ n ih =>
    intro k pool a h
    rw [selectRandom] at h
    split at h
    · rcases List.mem_cons.mp h with rfl | h2
      · exact List.get_mem _ _ _
      · exact (List.eraseIdx_sublist _ _).mem (ih h2)
    · simp at h

theorem selectRandom_length {α : Type} (pick : Nat → Nat) :
    ∀ (n k : Nat) (pool : List α),
      (selectRandom pick k n pool).length = min n pool.length := by
  intro n
  induction n with
  | zero => intro k pool; simp [selectRandom]
  | succ n ih =>
    intro k pool
    rw [selectRandom]
    split
    · rename_i hpos
      have hlen := List.length_eraseIdx_add_one
        (show (pick k % pool.length : Nat) < pool.length from Nat.mod_lt _ hpos)
      simp only [List.length_cons, ih]
      omega
    · rename_i hpos
      simp only [List.length_nil]
      omega

theorem selectRandom_subperm {α : Type} [DecidableEq α] (pick : Nat → Nat) :
    ∀ (n k : Nat) (pool : List α), List.Subperm (selectRandom pick k n pool) pool := by
  intro n
  induction n with
  | zero => intro k pool; simp [selectRandom]
  | succ n ih =>
    intro k pool
    rw [selectRandom]
    split
    · rename_i hpos
      have hi : (pick k % pool.length : Nat) < pool.length := Nat.mod_lt _ hpos
      have hperm : pool.Perm (pool.get ⟨pick k % pool.length, hi⟩ ::
          pool.eraseIdx (pick k % pool.length)) := by
        refine (List.perm_cons_erase (List.get_mem _ _ _)).trans (List.Perm.cons _ ?_)
        exact List.erase_getElem hi
      refine List.Subperm.trans ?_ hperm.symm.subperm
      exact (List.subperm_cons _).mpr (ih (k + 1) (pool.eraseIdx _))
    · exact List.nil_subperm

/-- Claim C7: when the candidate pool holds fewer positions than the
requested building count, the selection loop returns exactly the pool size
many placements, drawn without replacement (the result is a permutation of a
sublist of the pool), and it cannot fail: the embedding is a total
function. -/
theorem C7_pool_smaller {α : Type} [DecidableEq α] (pick : Nat → Nat) (pool : List α)
    (n : Nat) (h : pool.length < n) :
    (selectRandom pick 0 n pool).length = pool.length ∧
    List.Subperm (selectRandom pick 0 n pool) pool :=
  ⟨by rw [selectRandom_length]; omega, selectRandom_subperm pick n 0 pool⟩

/-- Claim C7, witness: requesting 5 placements from a 2-element pool returns
exactly 2 placements drawn from the pool. -/
theorem C7_pool_smaller_witness :
    (selectRandom (fun _ => 0) 0 5 ([10, 20] : List Nat)).length = 2 ∧
    List.Subperm (selectRandom (fun _ => 0) 0 5 ([10, 20] : List Nat)) [10, 20] :=
  C7_pool_smaller (fun _ => 0) [10, 20] 5 (by decide)


/-- Claim C6: every position returned by `addResidentialDistrict` — whatever
the jitter values and random draws — lies outside all exclusion rectangles:
the grid pass pushes only candidates that fail the union-of-rectangles
test, and the selection loop only draws from that pool. -/
theorem C6_outside_exclusions (jitter : Int → Int → ℚ × ℚ) (pick : Nat → Nat)
    (n : Nat) (p : ℚ × ℚ) (hp : p ∈ addResidentialDistrict jitter pick n) :
    excludedResidential p.1 p.2 = false := by
  have hcand : p ∈ residentialCandidates jitter := selectRandom_mem hp
  rw [residentialCandidates] at hcand
  obtain ⟨xi, hxi, hzi⟩ := List.mem_flatMap.mp hcand
  obtain ⟨zi, hzi2, heq⟩ := List.mem_filterMap.mp hzi
  dsimp only [] at heq
  split at heq
  · exact absurd heq (by simp)
  · rename_i hexc
    rw [Option.some.injEq] at heq
    rw [← heq]
    exact Bool.not_eq_true _ |>.mp hexc

/-- Claim C6, witness: with all random draws at `0.5`, one returned position
is the grid corner `(-60, -60)`, and it is outside every exclusion
rectangle. -/
theorem C6_outside_exclusions_witness :
    excludedResidential (-60 : ℚ) (-60 : ℚ) = false := by
  have hrange : List.range 12 = [0, 1, 2, 3, 4, 5, 6, 7, 8, 9, 10, 11] := by decide
  obtain ⟨t, ht⟩ : ∃ t, residentialCandidates zeroJitter = ((-60 : ℚ), (-60 : ℚ)) :: t := by
    rw [residentialCandidates, hrange]
    rw [show ([0, 1, 2, 3, 4, 5, 6, 7, 8, 9, 10, 11] : List Nat) =
      0 :: [1, 2, 3, 4, 5, 6, 7, 8, 9, 10, 11] from rfl]
    rw [List.flatMap_cons, List.filterMap_cons]
    norm_num [zeroJitter, excludedResidential, jabs]
  have hmem : ((-60 : ℚ), (-60 : ℚ)) ∈ addResidentialDistrict zeroJitter (fun _ => 0) 1 := by
    rw [addResidentialDistrict, selectRandom, ht]
    simp [selectRandom]
  exact C6_outside_exclusions zeroJitter (fun _ => 0) 1 ((-60 : ℚ), (-60 : ℚ)) hmem

theorem sampleTreePoint_stuck : ∀ (fuel k : Nat),
    sampleTreePoint stuckRand k fuel = none := by
  intro fuel
  induction fuel with
  | zero => intro k; rfl
  | succ fuel ih =>
    intro k
    rw [sampleTreePoint]
    have hc : treeCandidate stuckRand k = (0, 0) := by
      norm_num [treeCandidate, stuckRand]
    rw [hc]
    norm_num [treeAreaValid, jabs]
    exact ih (k + 1)

/-- Claim C8, counterexample: the claim fails on the code.  The rejection
loop of `addTrees` does not terminate for every input: on the random stream
stuck at `0.5` every candidate is `(0, 0)`, which the road-band test rejects,
so no retry budget ever produces a point — the source has no retry cap and no
PlacementExhausted signal. -/
theorem C8_counterexample :
    ¬ (∀ rand : Nat → ℚ × ℚ, ∃ fuel, (sampleTreePoint rand 0 fuel).isSome = true) := by
  intro hall
  obtain ⟨fuel, hf⟩ := hall stuckRand
  rw [sampleTreePoint_stuck fuel 0] at hf
  simp at hf

/-- Claim C8, amended: the rejection loop terminates within a finite retry
budget exactly when some draw within that budget yields a candidate outside
the central square and road bands; termination is a property of the random
stream, not guaranteed, and exhaustion is not reported as an error. -/
theorem C8_amended (rand : Nat → ℚ × ℚ) : ∀ (fuel k : Nat),
    (sampleTreePoint rand k fuel).isSome = true ↔
      ∃ j, j < fuel ∧
        treeAreaValid (treeCandidate rand (k + j)).1 (treeCandidate rand (k + j)).2 = true := by
  intro fuel
  induction fuel with
  | zero =>
    intro k
    simp [sampleTreePoint]
  | succ fuel ih =>
    intro k
    rw [sampleTreePoint]
    cases hv : treeAreaValid (treeCandidate rand k).1 (treeCandidate rand k).2 with
    | true =>
      simp only [hv, if_true, Option.isSome_some, true_iff]
      exact ⟨0, Nat.succ_pos _, by simpa using hv⟩
    | false =>
      simp only [hv, Bool.false_eq_true, if_false, ih (k + 1)]
      constructor
      · rintro ⟨j, hj, hval⟩
        exact ⟨j + 1, by omega, by rw [show k + (j + 1) = k + 1 + j by omega]; exact hval⟩
      · rintro ⟨j, hj, hval⟩
        cases j with
        | zero => simp only [Nat.add_zero] at hval; rw [hval] at hv; exact absurd hv (by simp)
        | succ j =>
          exact ⟨j, by omega, by rw [show k + 1 + j = k + (j + 1) by omega]; exact hval⟩
